import Mathlib

/-!
Verification of the picochess display dispatcher (`dispatcher.py`) and the
DGT display state machine (`dgt/display.py`).

The dispatcher consumes display commands.  It only ever inspects a command
through `repr(message)` (its kind tag), `hash(message)` (a content hash over
the whole command value), `message.beep`, and the optional attributes
`wait` and `maxtime`; the remaining payload (move, fen, text, devices, ...)
is opaque to it and is summarised by the content hash below.
-/

namespace Dispatcher

/-- Command kind tags, mirroring the `DgtApi` string constants compared
against `repr(message)` in `dispatcher.py`. -/
inductive DgtApi where
  | DISPLAY_MOVE
  | DISPLAY_TEXT
  | DISPLAY_TIME
  | CLOCK_START
  | CLOCK_STOP
  | CLOCK_TIME
  | LIGHT_SQUARES
  | LIGHT_CLEAR
  | CLOCK_VERSION
  deriving DecidableEq, Repr

/-- A display command as seen by the dispatcher: its kind tag, its content
hash (`hash(message)` — equal hash means equal value), its `beep` flag, and
the optional `wait` / `maxtime` attributes (`none` models the absence of the
attribute, checked with `hasattr` in the source). `maxtime` is a duration in
seconds (the source uses values such as 0, 0.5 and 1, hence ℚ). -/
structure DgtMsg where
  tag : DgtApi
  hashv : Nat
  beep : Bool
  wait : Option Bool
  maxtime : Option ℚ
  deriving DecidableEq, Repr

/-- The part of the dispatcher state touched by `_process_message`:
`display_hash` (hash of the clock display, `None` initially or after a
clock-state command), `maxtimer_running`, and `timerId`, a counter standing
for the identity of the `Timer` object stored in `self.maxtimer` (it is
bumped exactly when a new `Timer` is created and started). -/
structure DispCore where
  maxtimer_running : Bool
  display_hash : Option Nat
  timerId : Nat
  deriving DecidableEq, Repr

/-- Full dispatcher state: the core above plus `self.tasks`, the FIFO of
deferred commands. -/
structure DispState where
  core : DispCore
  tasks : List DgtMsg
  deriving DecidableEq, Repr

/-- `if hasattr(message, 'maxtime') and message.maxtime > 0:` — create and
start a new one-shot timer and mark it running (dispatcher.py lines 71-75). -/
def armTimer (c : DispCore) (m : DgtMsg) : DispCore :=
  match m.maxtime with
  | some t => if 0 < t then { c with timerId := c.timerId + 1, maxtimer_running := true } else c
  | none => c

/-- `Dispatcher._process_message` (dispatcher.py lines 59-80).  Clock-state
commands invalidate the dedup hash and are always shown; move/text commands
equal (by hash) to the last shown one with no beep are dropped, otherwise
the hash is updated; every handled command with positive `maxtime` arms the
timer and is forwarded to `DisplayDgt.show` (the returned list). -/
def process_message (c : DispCore) (m : DgtMsg) : DispCore × List DgtMsg :=
  if m.tag = DgtApi.CLOCK_START ∨ m.tag = DgtApi.CLOCK_STOP ∨ m.tag = DgtApi.CLOCK_TIME then
    (armTimer { c with display_hash := none } m, [m])
  else if m.tag = DgtApi.DISPLAY_MOVE ∨ m.tag = DgtApi.DISPLAY_TEXT then
    if c.display_hash = some m.hashv ∧ m.beep = false then
      (c, [])
    else
      (armTimer { c with display_hash := some m.hashv } m, [m])
  else
    (armTimer c m, [m])

/-- The forced `Dgt.DISPLAY_TIME(force=False, wait=True, devs=...)` refresh
shown at the start of `_stopped_maxtimer`.  `DISPLAY_TIME` carries no
`beep`/`maxtime` attribute and no meaningful content hash for the
dispatcher (it is shown directly, bypassing `_process_message`). -/
def displayTimeRefresh : DgtMsg :=
  { tag := DgtApi.DISPLAY_TIME, hashv := 0, beep := false, wait := some true, maxtime := none }

/-- The `while self.tasks:` drain loop of `_stopped_maxtimer`
(dispatcher.py lines 51-57): pop the head, process it under the lock, and
stop early as soon as processing re-armed the timer.  The list argument is
the current FIFO (`_process_message` never touches the FIFO, so it is
threaded structurally); the returned pair is (final core, remaining FIFO)
together with all commands forwarded to the hardware sink. -/
def drainLoop : DispCore → List DgtMsg → (DispCore × List DgtMsg) × List DgtMsg
  | c, [] => ((c, []), [])
  | c, m :: rest =>
      let p := process_message c m
      if p.1.maxtimer_running then ((p.1, rest), p.2)
      else
        let q := drainLoop p.1 rest
        (q.1, p.2 ++ q.2)

/-- `Dispatcher._stopped_maxtimer` (dispatcher.py lines 40-57): the timer
callback clears the running flag, shows a `DISPLAY_TIME` refresh, and
drains the FIFO (stopping early if a drained command re-arms the timer). -/
def stopped_maxtimer (s : DispState) : DispState × List DgtMsg :=
  let c := { s.core with maxtimer_running := false }
  let q := drainLoop c s.tasks
  (⟨q.1.1, q.1.2⟩, displayTimeRefresh :: q.2)

/-- One iteration of the `Dispatcher.run` consumer loop for one command
taken from `dispatch_queue` (dispatcher.py lines 90-110): with the timer
running, a `wait=True` command is appended to the FIFO, a `wait=False`
command cancels the timer and discards the FIFO, and a command without a
`wait` attribute does not interrupt the timer; in all non-deferred cases
the command is then processed under the lock. -/
def run_step (s : DispState) (m : DgtMsg) : DispState × List DgtMsg :=
  if s.core.maxtimer_running then
    match m.wait with
    | some w =>
        if w then
          ({ s with tasks := s.tasks ++ [m] }, [])
        else
          let p := process_message { s.core with maxtimer_running := false } m
          (⟨p.1, []⟩, p.2)
    | none =>
        let p := process_message s.core m
        (⟨p.1, s.tasks⟩, p.2)
  else
    let p := process_message s.core m
    (⟨p.1, s.tasks⟩, p.2)

/-- Sequential processing of a list of commands through
`_process_message`, each against the state left by its predecessor (the
"step 3–4" rules of the spec, in FIFO order). -/
def processSeq : DispCore → List DgtMsg → DispCore × List DgtMsg
  | c, [] => (c, [])
  | c, m :: rest =>
      let p := process_message c m
      let q := processSeq p.1 rest
      (q.1, p.2 ++ q.2)

/-- Repeated maxtime-timer expiries (at most `fuel` of them), each running
`_stopped_maxtimer`, until the deferred FIFO is empty.  A drain that stops
early leaves the timer re-armed, so the next expiry continues the drain. -/
def expire_until_empty : Nat → DispState → DispState × List DgtMsg
  | 0, s => (s, [])
  | Nat.succ n, s =>
      let p := stopped_maxtimer s
      if p.1.tasks = [] then (p.1, p.2)
      else
        let q := expire_until_empty n p.1
        (q.1, p.2 ++ q.2)

/-- Whether a command arms the maxtime timer when handled. -/
def armB (m : DgtMsg) : Bool :=
  match m.maxtime with
  | some t => decide (0 < t)
  | none => false

/-- Modelled from the spec: the display-command taxonomy of §6
(`dgt/api.py` is not part of the shown sources).  Per the listed
constructors, every command kind that carries a `maxtime` field
(`DISPLAY_MOVE`, `DISPLAY_TEXT`) also carries a `wait` field; commands
without `wait` (`CLOCK_STOP`, `CLOCK_TIME`, `LIGHT_SQUARES`,
`LIGHT_CLEAR`, `CLOCK_VERSION`) have no `maxtime`. -/
def wfMsg (m : DgtMsg) : Prop :=
  m.maxtime.isSome → m.wait.isSome

theorem armTimer_none (c : DispCore) (m : DgtMsg) (h : m.maxtime = none) :
    armTimer c m = c := by
  unfold armTimer; rw [h]

theorem armTimer_display_hash (c : DispCore) (m : DgtMsg) :
    (armTimer c m).display_hash = c.display_hash := by
  unfold armTimer
  cases m.maxtime with
  | none => rfl
  | some t => dsimp only; split <;> rfl

theorem armTimer_running (c : DispCore) (m : DgtMsg) :
    (armTimer c m).maxtimer_running = (c.maxtimer_running || armB m) := by
  unfold armTimer armB
  cases m.maxtime with
  | none => simp
  | some t =>
      dsimp only
      split
      · simp_all
      · simp_all

/-- `_process_message` forwards either nothing (the dedup case, leaving the
whole state untouched) or exactly the incoming command. -/
theorem process_message_out (c : DispCore) (m : DgtMsg) :
    (process_message c m).2 = [] ∧ process_message c m = (c, []) ∨
    (process_message c m).2 = [m] := by
  unfold process_message
  split
  · right; rfl
  · split
    · split
      · left; exact ⟨rfl, rfl⟩
      · right; rfl
    · right; rfl

/-- The behaviour of `_process_message` (its output and the dedup hash it
leaves behind) does not depend on the timer-running flag of the incoming
state. -/
theorem process_message_agree (c c' : DispCore) (m : DgtMsg)
    (hd : c.display_hash = c'.display_hash) :
    (process_message c m).2 = (process_message c' m).2 ∧
    (process_message c m).1.display_hash = (process_message c' m).1.display_hash := by
  unfold process_message
  split
  · exact ⟨rfl, by rw [armTimer_display_hash, armTimer_display_hash]⟩
  · split
    · rw [hd]
      split
      · exact ⟨rfl, hd⟩
      · exact ⟨rfl, by rw [armTimer_display_hash, armTimer_display_hash]⟩
    · exact ⟨rfl, by rw [armTimer_display_hash, armTimer_display_hash, hd]⟩

/-- After a move/text command is forwarded, the dedup hash is its hash. -/
theorem process_message_hash_after (c : DispCore) (m : DgtMsg)
    (htag : m.tag = DgtApi.DISPLAY_MOVE ∨ m.tag = DgtApi.DISPLAY_TEXT)
    (hfwd : (process_message c m).2 = [m]) :
    (process_message c m).1.display_hash = some m.hashv := by
  have hnc : ¬(m.tag = DgtApi.CLOCK_START ∨ m.tag = DgtApi.CLOCK_STOP ∨
      m.tag = DgtApi.CLOCK_TIME) := by
    rcases htag with h | h <;> rw [h] <;> simp
  unfold process_message at hfwd ⊢
  rw [if_neg hnc, if_pos htag] at hfwd ⊢
  by_cases hdup : c.display_hash = some m.hashv ∧ m.beep = false
  · rw [if_pos hdup] at hfwd; simp at hfwd
  · rw [if_neg hdup]
    exact (armTimer_display_hash _ m).trans rfl

theorem armTimer_zero (c : DispCore) (m : DgtMsg) (h : m.maxtime = some 0) :
    armTimer c m = c := by
  unfold armTimer; rw [h]; simp

/-- A clock-state command is always forwarded by `_process_message`. -/
theorem process_message_clock_out (c : DispCore) (m : DgtMsg)
    (h : m.tag = DgtApi.CLOCK_START ∨ m.tag = DgtApi.CLOCK_STOP ∨ m.tag = DgtApi.CLOCK_TIME) :
    (process_message c m).2 = [m] := by
  unfold process_message; rw [if_pos h]

/-- A command without a `maxtime` attribute, or with `maxtime = 0`, leaves
the timer-running flag and the timer handle of `_process_message`
untouched. -/
theorem process_message_no_arm (c : DispCore) (m : DgtMsg)
    (harm : ∀ x : DispCore, armTimer x m = x) :
    (process_message c m).1.maxtimer_running = c.maxtimer_running ∧
    (process_message c m).1.timerId = c.timerId := by
  unfold process_message
  split
  · rw [harm]; exact ⟨rfl, rfl⟩
  · split
    · split
      · exact ⟨rfl, rfl⟩
      · rw [harm]; exact ⟨rfl, rfl⟩
    · rw [harm]; exact ⟨rfl, rfl⟩

/-- C1: two consecutively processed move/text display commands.  If the
second has the same content hash as the last forwarded move/text command
and requests no beep, it is dropped without being forwarded and the
dispatcher state is left exactly unchanged; otherwise the dedup hash is
updated to the new command's hash and the command is forwarded to the
hardware sink (dispatcher.py lines 59-80). -/
theorem C1_move_text_dedup (c : DispCore) (m1 m2 : DgtMsg)
    (h1 : m1.tag = DgtApi.DISPLAY_MOVE ∨ m1.tag = DgtApi.DISPLAY_TEXT)
    (h2 : m2.tag = DgtApi.DISPLAY_MOVE ∨ m2.tag = DgtApi.DISPLAY_TEXT)
    (hfwd : (process_message c m1).2 = [m1]) :
    (m2.hashv = m1.hashv ∧ m2.beep = false →
      process_message (process_message c m1).1 m2 = ((process_message c m1).1, [])) ∧
    (¬(m2.hashv = m1.hashv ∧ m2.beep = false) →
      (process_message (process_message c m1).1 m2).1.display_hash = some m2.hashv ∧
      (process_message (process_message c m1).1 m2).2 = [m2]) := by
  have hd1 : (process_message c m1).1.display_hash = some m1.hashv :=
    process_message_hash_after c m1 h1 hfwd
  have key : ∀ c' : DispCore, c'.display_hash = some m1.hashv →
      (m2.hashv = m1.hashv ∧ m2.beep = false → process_message c' m2 = (c', [])) ∧
      (¬(m2.hashv = m1.hashv ∧ m2.beep = false) →
        (process_message c' m2).1.display_hash = some m2.hashv ∧
        (process_message c' m2).2 = [m2]) := by
    intro c' hd
    have hnc : ¬(m2.tag = DgtApi.CLOCK_START ∨ m2.tag = DgtApi.CLOCK_STOP ∨
        m2.tag = DgtApi.CLOCK_TIME) := by
      rcases h2 with h | h <;> rw [h] <;> simp
    constructor
    · rintro ⟨he, hb⟩
      unfold process_message
      rw [if_neg hnc, if_pos h2, if_pos ⟨by rw [hd, he], hb⟩]
    · intro hne
      have hcond : ¬(c'.display_hash = some m2.hashv ∧ m2.beep = false) := by
        rw [hd]
        rintro ⟨ha, hb⟩
        exact hne ⟨(Option.some.inj ha).symm, hb⟩
      unfold process_message
      rw [if_neg hnc, if_pos h2, if_neg hcond]
      exact ⟨(armTimer_display_hash _ m2).trans rfl, rfl⟩
  exact key (process_message c m1).1 hd1

/-- Concrete state and commands witnessing C1: an empty dispatcher, then
two `DISPLAY_MOVE` commands of identical content hash without beep. -/
def dispCore0 : DispCore := { maxtimer_running := false, display_hash := none, timerId := 0 }

def moveMsgA : DgtMsg :=
  { tag := DgtApi.DISPLAY_MOVE, hashv := 7, beep := false, wait := some false, maxtime := some 1 }

def moveMsgB : DgtMsg :=
  { tag := DgtApi.DISPLAY_MOVE, hashv := 7, beep := false, wait := some false, maxtime := some 1 }

/-- Witness for C1: the first of two identical no-beep `DISPLAY_MOVE`
commands is forwarded and the second is dropped with the state unchanged. -/
theorem C1_move_text_dedup_witness :
    (process_message dispCore0 moveMsgA).2 = [moveMsgA] ∧
    process_message (process_message dispCore0 moveMsgA).1 moveMsgB =
      ((process_message dispCore0 moveMsgA).1, []) :=
  ⟨by decide,
   (C1_move_text_dedup dispCore0 moveMsgA moveMsgB (Or.inl rfl) (Or.inl rfl)
      (by decide)).1 ⟨rfl, rfl⟩⟩

/-- The analysis-mode hint display of dgt/display.py line 530:
`Dgt.DISPLAY_MOVE(..., wait=True, maxtime=0, ...)` — a real command with
`maxtime = 0` and `wait = True`. -/
def waitZeroMsg : DgtMsg :=
  { tag := DgtApi.DISPLAY_MOVE, hashv := 5, beep := false, wait := some true, maxtime := some 0 }

def timerBusyState : DispState :=
  { core := { maxtimer_running := true, display_hash := none, timerId := 1 }, tasks := [] }

/-- Counterexample to C3: a command with `maxtime = 0` but `wait = True`,
submitted while the maxtime timer is active, IS appended to the deferred
FIFO and is not forwarded immediately — deferral depends only on `wait`
(dispatcher.py lines 93-96), not on `maxtime`. -/
theorem C3_counterexample :
    waitZeroMsg.maxtime = some 0 ∧
    timerBusyState.core.maxtimer_running = true ∧
    run_step timerBusyState waitZeroMsg =
      ({ timerBusyState with tasks := [waitZeroMsg] }, []) := by
  refine ⟨rfl, rfl, ?_⟩
  decide

/-- C3 (amended): a command with `maxtime = 0` that is not deferred by the
`wait` rule — i.e. submitted while no timer is active, or not carrying
`wait = True` — is never appended to the FIFO (the FIFO is either left
unchanged or discarded by the `wait=False` cancellation), is forwarded (or
dedup-suppressed) immediately, never starts a new timer, and is never
deduplicated when it is a clock-state command. -/
theorem C3_maxtime_zero_immediate (s : DispState) (m : DgtMsg)
    (hmt : m.maxtime = some 0)
    (hnd : s.core.maxtimer_running = false ∨ m.wait ≠ some true) :
    ((run_step s m).1.tasks = s.tasks ∨ (run_step s m).1.tasks = []) ∧
    ((run_step s m).2 = [m] ∨ (run_step s m).2 = []) ∧
    ((m.tag = DgtApi.CLOCK_START ∨ m.tag = DgtApi.CLOCK_STOP ∨ m.tag = DgtApi.CLOCK_TIME) →
      (run_step s m).2 = [m]) ∧
    (run_step s m).1.core.timerId = s.core.timerId := by
  have harm : ∀ x : DispCore, armTimer x m = x := fun x => armTimer_zero x m hmt
  have hout : ∀ c : DispCore, (process_message c m).2 = [] ∨ (process_message c m).2 = [m] := by
    intro c
    rcases process_message_out c m with ⟨h, _⟩ | h
    · exact Or.inl h
    · exact Or.inr h
  unfold run_step
  by_cases hrun : s.core.maxtimer_running = true
  · rw [if_pos hrun]
    cases hwv : m.wait with
    | none =>
        dsimp only
        refine ⟨Or.inl rfl, (hout s.core).symm.imp id id, ?_, ?_⟩
        · exact fun h => process_message_clock_out s.core m h
        · exact (process_message_no_arm s.core m harm).2
    | some w =>
        cases w with
        | true =>
            exfalso
            rcases hnd with h | h
            · rw [h] at hrun; cases hrun
            · exact h hwv
        | false =>
            dsimp only
            refine ⟨Or.inr rfl, (hout _).symm.imp id id, ?_, ?_⟩
            · exact fun h => process_message_clock_out _ m h
            · exact (process_message_no_arm _ m harm).2
  · rw [if_neg hrun]
    dsimp only
    refine ⟨Or.inl rfl, (hout s.core).symm.imp id id, ?_, ?_⟩
    · exact fun h => process_message_clock_out s.core m h
    · exact (process_message_no_arm s.core m harm).2

/-- Witness for the amended C3: a `CLOCK_START` command with `maxtime = 0`
processed with no timer active is forwarded at once, not queued. -/
theorem C3_maxtime_zero_immediate_witness :
    (run_step ⟨dispCore0, []⟩ ⟨DgtApi.CLOCK_START, 3, false, some false, some 0⟩).1.tasks = [] ∧
    (run_step ⟨dispCore0, []⟩ ⟨DgtApi.CLOCK_START, 3, false, some false, some 0⟩).2 =
      [⟨DgtApi.CLOCK_START, 3, false, some false, some 0⟩] := by
  have h := C3_maxtime_zero_immediate ⟨dispCore0, []⟩
    ⟨DgtApi.CLOCK_START, 3, false, some false, some 0⟩ rfl (Or.inl rfl)
  exact ⟨by decide, h.2.2.1 (Or.inl rfl)⟩

/-- C10: a command with no `wait` attribute arriving while the maxtime
timer is active is neither deferred nor does it cancel the timer: the
FIFO, the running flag and the timer handle are unchanged, and the command
is processed exactly as it would be with no timer active (same forwarded
output, same resulting dedup hash).  Uses the spec-modelled §6 taxonomy
fact `wfMsg` (no `wait`-less command carries `maxtime`). -/
theorem C10_no_wait_attr_frame (s : DispState) (m : DgtMsg)
    (hrun : s.core.maxtimer_running = true) (hw : m.wait = none) (hwf : wfMsg m) :
    (run_step s m).1.tasks = s.tasks ∧
    (run_step s m).1.core.maxtimer_running = true ∧
    (run_step s m).1.core.timerId = s.core.timerId ∧
    (run_step s m).2 =
      (run_step ⟨⟨false, s.core.display_hash, s.core.timerId⟩, s.tasks⟩ m).2 ∧
    (run_step s m).1.core.display_hash =
      (run_step ⟨⟨false, s.core.display_hash, s.core.timerId⟩, s.tasks⟩ m).1.core.display_hash := by
  have hmt : m.maxtime = none := by
    cases hmtv : m.maxtime with
    | none => rfl
    | some t =>
        have := hwf (by rw [hmtv]; rfl)
        rw [hw] at this
        cases this
  have harm : ∀ x : DispCore, armTimer x m = x := fun x => armTimer_none x m hmt
  have hagree := process_message_agree s.core ⟨false, s.core.display_hash, s.core.timerId⟩ m rfl
  have hpres := process_message_no_arm s.core m harm
  unfold run_step
  rw [if_pos hrun, hw]
  dsimp only
  rw [if_neg (by simp : ¬(⟨⟨false, s.core.display_hash, s.core.timerId⟩,
    s.tasks⟩ : DispState).core.maxtimer_running = true)]
  exact ⟨rfl, hpres.1.trans hrun, hpres.2, hagree.1, hagree.2⟩

theorem processSeq_append (c : DispCore) (a b : List DgtMsg) :
    processSeq c (a ++ b) =
      ((processSeq (processSeq c a).1 b).1,
       (processSeq c a).2 ++ (processSeq (processSeq c a).1 b).2) := by
  induction a generalizing c with
  | nil => simp [processSeq]
  | cons m rest ih =>
      simp only [List.cons_append, processSeq]
      rw [show List.append rest b = rest ++ b from rfl, ih]
      simp [List.append_assoc]

theorem processSeq_agree (c c' : DispCore) (l : List DgtMsg)
    (hd : c.display_hash = c'.display_hash) :
    (processSeq c l).2 = (processSeq c' l).2 ∧
    (processSeq c l).1.display_hash = (processSeq c' l).1.display_hash := by
  induction l generalizing c c' with
  | nil => exact ⟨rfl, hd⟩
  | cons m rest ih =>
      have h := process_message_agree c c' m hd
      have h2 := ih (process_message c m).1 (process_message c' m).1 h.2
      simp only [processSeq]
      exact ⟨by rw [h.1, h2.1], h2.2⟩

/-- Sequential processing forwards a subset of the processed commands, so
filtering out the timer's own `DISPLAY_TIME` refresh leaves the forwarded
commands untouched when none of them is that refresh. -/
theorem processSeq_filter (c : DispCore) (l : List DgtMsg)
    (hl : ∀ m ∈ l, m ≠ displayTimeRefresh) :
    (processSeq c l).2.filter (fun x => x != displayTimeRefresh) = (processSeq c l).2 := by
  induction l generalizing c with
  | nil => rfl
  | cons m rest ih =>
      simp only [processSeq, List.filter_append]
      rw [ih _ (fun x hx => hl x (List.mem_cons_of_mem _ hx))]
      congr 1
      rcases process_message_out c m with ⟨h, _⟩ | h
      · rw [h]; rfl
      · rw [h]
        have hm : (m != displayTimeRefresh) = true := by
          simp only [bne_iff_ne, ne_eq]
          exact hl m (List.mem_cons_self _ _)
        simp [List.filter, hm]

/-- The drain loop of `_stopped_maxtimer` splits the FIFO into a processed
prefix and an untouched suffix: the prefix is processed sequentially by
`_process_message`, and a non-empty suffix remains exactly when processing
the (non-empty) prefix re-armed the maxtime timer. -/
theorem drainLoop_spec (l : List DgtMsg) (c : DispCore) :
    ∃ l1 l2, l = l1 ++ l2 ∧
      drainLoop c l = (((processSeq c l1).1, l2), (processSeq c l1).2) ∧
      (l2 ≠ [] → (processSeq c l1).1.maxtimer_running = true ∧ l1 ≠ []) := by
  induction l generalizing c with
  | nil => exact ⟨[], [], rfl, rfl, fun h => absurd rfl h⟩
  | cons m rest ih =>
      by_cases hb : (process_message c m).1.maxtimer_running = true
      · refine ⟨[m], rest, rfl, ?_, fun _ => ⟨?_, by simp⟩⟩
        · simp only [drainLoop, processSeq]
          rw [if_pos hb]
          simp
        · simpa [processSeq] using hb
      · obtain ⟨l1, l2, hsplit, hdrain, harm⟩ := ih (process_message c m).1
        refine ⟨m :: l1, l2, by rw [List.cons_append, ← hsplit], ?_, fun h => ⟨?_, by simp⟩⟩
        · simp only [drainLoop, processSeq]
          rw [if_neg hb, hdrain]
        · simpa [processSeq] using (harm h).1

theorem filter_refresh_cons (out : List DgtMsg) :
    (displayTimeRefresh :: out).filter (fun x => x != displayTimeRefresh) =
      out.filter (fun x => x != displayTimeRefresh) := by
  simp [List.filter_cons]

theorem expire_succ_eq (k : Nat) (s : DispState) :
    expire_until_empty (k + 1) s =
      (if (stopped_maxtimer s).1.tasks = [] then
        ((stopped_maxtimer s).1, (stopped_maxtimer s).2)
       else
        ((expire_until_empty k (stopped_maxtimer s).1).1,
         (stopped_maxtimer s).2 ++ (expire_until_empty k (stopped_maxtimer s).1).2)) := rfl

/-- Iterated timer expiries fully drain a FIFO of `n+1` or fewer commands:
the FIFO ends empty, the first forwarded message of the first expiry is
the `DISPLAY_TIME` refresh, and — refreshes aside — the hardware sink
receives exactly the FIFO processed sequentially in arrival order by
`_process_message`. -/
theorem expire_spec (n : Nat) : ∀ (c : DispCore) (l : List DgtMsg),
    l.length ≤ n + 1 → (∀ m ∈ l, m ≠ displayTimeRefresh) →
    (expire_until_empty (n + 1) ⟨c, l⟩).1.tasks = [] ∧
    (expire_until_empty (n + 1) ⟨c, l⟩).2.head? = some displayTimeRefresh ∧
    (expire_until_empty (n + 1) ⟨c, l⟩).2.filter (fun x => x != displayTimeRefresh) =
      (processSeq { c with maxtimer_running := false } l).2 := by
  induction n with
  | zero =>
      intro c l hlen hmem
      obtain ⟨l1, l2, hsplit, hdrain, harm⟩ :=
        drainLoop_spec l { c with maxtimer_running := false }
      have hl2 : l2 = [] := by
        by_contra hne
        obtain ⟨_, hl1⟩ := harm hne
        have : 2 ≤ l.length := by
          rw [hsplit, List.length_append]
          rcases List.exists_cons_of_ne_nil hl1 with ⟨a, t, rfl⟩
          rcases List.exists_cons_of_ne_nil hne with ⟨b, u, rfl⟩
          simp; omega
        omega
      subst hl2
      have hl1 : l1 = l := by rw [hsplit, List.append_nil]
      subst hl1
      have hstop : stopped_maxtimer ⟨c, l1⟩ =
          (⟨(processSeq { c with maxtimer_running := false } l1).1, []⟩,
           displayTimeRefresh :: (processSeq { c with maxtimer_running := false } l1).2) := by
        unfold stopped_maxtimer
        dsimp only
        rw [hdrain]
      rw [expire_succ_eq, hstop, if_pos rfl]
      exact ⟨rfl, rfl, by rw [filter_refresh_cons]; exact processSeq_filter _ l1 hmem⟩
  | succ n ih =>
      intro c l hlen hmem
      obtain ⟨l1, l2, hsplit, hdrain, harm⟩ :=
        drainLoop_spec l { c with maxtimer_running := false }
      have hstop : stopped_maxtimer ⟨c, l⟩ =
          (⟨(processSeq { c with maxtimer_running := false } l1).1, l2⟩,
           displayTimeRefresh :: (processSeq { c with maxtimer_running := false } l1).2) := by
        unfold stopped_maxtimer
        dsimp only
        rw [hdrain]
      by_cases hl2 : l2 = []
      · subst hl2
        have hl1 : l1 = l := by rw [hsplit, List.append_nil]
        subst hl1
        rw [expire_succ_eq, hstop, if_pos rfl]
        exact ⟨rfl, rfl, by rw [filter_refresh_cons]; exact processSeq_filter _ l1 hmem⟩
      · have hmem1 : ∀ m ∈ l1, m ≠ displayTimeRefresh := by
          intro m hm; exact hmem m (by rw [hsplit]; exact List.mem_append_left _ hm)
        have hmem2 : ∀ m ∈ l2, m ≠ displayTimeRefresh := by
          intro m hm; exact hmem m (by rw [hsplit]; exact List.mem_append_right _ hm)
        have hlen2 : l2.length ≤ n + 1 := by
          obtain ⟨_, hl1⟩ := harm hl2
          have : 1 ≤ l1.length := by
            rcases List.exists_cons_of_ne_nil hl1 with ⟨a, t, rfl⟩; simp
          have := hsplit ▸ hlen
          rw [List.length_append] at this
          omega
        obtain ⟨q1, q2, q3⟩ :=
          ih (processSeq { c with maxtimer_running := false } l1).1 l2 hlen2 hmem2
        rw [expire_succ_eq, hstop, if_neg hl2]
        refine ⟨q1, rfl, ?_⟩
        rw [List.filter_append, filter_refresh_cons, processSeq_filter _ l1 hmem1, q3]
        have hagree := processSeq_agree
          { (processSeq { c with maxtimer_running := false } l1).1 with maxtimer_running := false }
          (processSeq { c with maxtimer_running := false } l1).1 l2 rfl
        rw [hagree.1, hsplit, processSeq_append]

/-- C2: on maxtime-timer expiry the dispatcher first emits the forced
`DISPLAY_TIME` refresh and then drains the FIFO in arrival order through
`_process_message` (dedup/hash/timer rules), stopping early — leaving the
remaining FIFO entries queued — exactly when processing an entry re-armed
the timer; and three commands queued with `wait=True` before expiry are
all eventually drained (within three expiries) in FIFO order, each
deduplicated against its immediate predecessor. -/
theorem C2_expiry_drains_fifo (s : DispState) (m1 m2 m3 : DgtMsg)
    (hrun : s.core.maxtimer_running = true) (ht : s.tasks = [])
    (h1 : m1.wait = some true) (h2 : m2.wait = some true) (h3 : m3.wait = some true)
    (n1 : m1 ≠ displayTimeRefresh) (n2 : m2 ≠ displayTimeRefresh)
    (n3 : m3 ≠ displayTimeRefresh) :
    (∀ t : DispState, ∃ l1 l2, t.tasks = l1 ++ l2 ∧
        stopped_maxtimer t =
          (⟨(processSeq { t.core with maxtimer_running := false } l1).1, l2⟩,
           displayTimeRefresh :: (processSeq { t.core with maxtimer_running := false } l1).2) ∧
        (l2 ≠ [] →
          (processSeq { t.core with maxtimer_running := false } l1).1.maxtimer_running = true)) ∧
    (run_step (run_step (run_step s m1).1 m2).1 m3).1 = ⟨s.core, [m1, m2, m3]⟩ ∧
    (run_step s m1).2 = [] ∧ (run_step (run_step s m1).1 m2).2 = [] ∧
    (run_step (run_step (run_step s m1).1 m2).1 m3).2 = [] ∧
    (expire_until_empty 3 ⟨s.core, [m1, m2, m3]⟩).1.tasks = [] ∧
    (expire_until_empty 3 ⟨s.core, [m1, m2, m3]⟩).2.head? = some displayTimeRefresh ∧
    (expire_until_empty 3 ⟨s.core, [m1, m2, m3]⟩).2.filter (fun x => x != displayTimeRefresh) =
      (processSeq { s.core with maxtimer_running := false } [m1, m2, m3]).2 := by
  have hgen : ∀ t : DispState, ∃ l1 l2, t.tasks = l1 ++ l2 ∧
      stopped_maxtimer t =
        (⟨(processSeq { t.core with maxtimer_running := false } l1).1, l2⟩,
         displayTimeRefresh :: (processSeq { t.core with maxtimer_running := false } l1).2) ∧
      (l2 ≠ [] →
        (processSeq { t.core with maxtimer_running := false } l1).1.maxtimer_running = true) := by
    intro t
    obtain ⟨l1, l2, hs, hd, ha⟩ := drainLoop_spec t.tasks { t.core with maxtimer_running := false }
    refine ⟨l1, l2, hs, ?_, fun h => (ha h).1⟩
    unfold stopped_maxtimer
    dsimp only
    rw [hd]
  have e1 : run_step s m1 = (⟨s.core, s.tasks ++ [m1]⟩, []) := by
    unfold run_step; rw [if_pos hrun, h1]; rfl
  have hstate1 : (run_step s m1).1 = ⟨s.core, [m1]⟩ := by
    rw [e1, ht]; rfl
  have e2 : run_step ⟨s.core, [m1]⟩ m2 = (⟨s.core, [m1, m2]⟩, []) := by
    unfold run_step; rw [if_pos hrun, h2]; rfl
  have hstate2 : (run_step (run_step s m1).1 m2).1 = ⟨s.core, [m1, m2]⟩ := by
    rw [hstate1, e2]
  have e3 : run_step ⟨s.core, [m1, m2]⟩ m3 = (⟨s.core, [m1, m2, m3]⟩, []) := by
    unfold run_step; rw [if_pos hrun, h3]; rfl
  have hstate3 : (run_step (run_step (run_step s m1).1 m2).1 m3).1 = ⟨s.core, [m1, m2, m3]⟩ := by
    rw [hstate2, e3]
  have hmem : ∀ x ∈ [m1, m2, m3], x ≠ displayTimeRefresh := by
    intro x hx
    simp only [List.mem_cons, List.not_mem_nil, or_false] at hx
    rcases hx with rfl | rfl | rfl <;> assumption
  obtain ⟨w1, w2, w3⟩ := expire_spec 2 s.core [m1, m2, m3] (by simp) hmem
  refine ⟨hgen, hstate3, ?_, ?_, ?_, w1, w2, w3⟩
  · rw [e1]
  · rw [hstate1, e2]
  · rw [hstate2, e3]

def waitMsgA : DgtMsg :=
  { tag := DgtApi.DISPLAY_TEXT, hashv := 11, beep := false, wait := some true, maxtime := some 1 }

def waitMsgB : DgtMsg :=
  { tag := DgtApi.DISPLAY_TEXT, hashv := 11, beep := false, wait := some true, maxtime := none }

def waitMsgC : DgtMsg :=
  { tag := DgtApi.DISPLAY_TEXT, hashv := 12, beep := false, wait := some true, maxtime := some 1 }

/-- Witness for C2: three waiting `DISPLAY_TEXT` commands queued behind an
active timer; the first arms the timer again on the first expiry, the
second is dropped as a duplicate of the first on the second expiry, the
third forwards; the FIFO ends empty. -/
theorem C2_expiry_drains_fifo_witness :
    (expire_until_empty 3 ⟨⟨true, none, 1⟩, [waitMsgA, waitMsgB, waitMsgC]⟩).1.tasks = [] ∧
    (expire_until_empty 3 ⟨⟨true, none, 1⟩, [waitMsgA, waitMsgB, waitMsgC]⟩).2.filter
        (fun x => x != displayTimeRefresh) =
      (processSeq ⟨false, none, 1⟩ [waitMsgA, waitMsgB, waitMsgC]).2 := by
  have h := C2_expiry_drains_fifo ⟨⟨true, none, 1⟩, []⟩ waitMsgA waitMsgB waitMsgC
    rfl rfl rfl rfl rfl (by decide) (by decide) (by decide)
  exact ⟨h.2.2.2.2.2.1, h.2.2.2.2.2.2.2⟩

/-- Witness for C10: a `CLOCK_STOP` command (no `wait`, no `maxtime`)
arriving while the timer runs with one task queued. -/
theorem C10_no_wait_attr_frame_witness :
    (run_step ⟨⟨true, some 9, 4⟩, [moveMsgA]⟩
        ⟨DgtApi.CLOCK_STOP, 2, false, none, none⟩).1.tasks = [moveMsgA] ∧
    (run_step ⟨⟨true, some 9, 4⟩, [moveMsgA]⟩
        ⟨DgtApi.CLOCK_STOP, 2, false, none, none⟩).1.core.timerId = 4 := by
  have h := C10_no_wait_attr_frame ⟨⟨true, some 9, 4⟩, [moveMsgA]⟩
    ⟨DgtApi.CLOCK_STOP, 2, false, none, none⟩ rfl rfl (by intro h; cases h)
  exact ⟨h.1, h.2.2.1⟩

end Dispatcher

namespace Display

/-! ### Python string and number helpers for `dgt/display.py`

Python strings are modelled as Lean `String`s (a list of characters).
`s[-n:]` is `pyTakeRight`, `str.replace` of the decimal point is
`stripDot`, and `int(s)` is `pyInt` (the strings parsed in the source
never carry surrounding whitespace, so whitespace stripping is omitted).
The float `int(x)/100` formatted with `'{:w.2f}'` is modelled exactly as
the value with two decimal digits (exact for the centipawn magnitudes the
display handles). -/

/-- Decimal digit characters, most significant first, with explicit fuel
(structural recursion, so that concrete renderings evaluate inside the
kernel).  The fuel is adequate whenever `n ≤ fuel` or `n < 10`. -/
def natCharsF : Nat → Nat → List Char
  | 0, n => [Char.ofNat (48 + n)]
  | fuel + 1, n =>
      if n < 10 then [Char.ofNat (48 + n)]
      else natCharsF fuel (n / 10) ++ [Char.ofNat (48 + n % 10)]

/-- Decimal digit characters of `n`, most significant first. -/
def natChars (n : Nat) : List Char := natCharsF n n

theorem natCharsF_fuel : ∀ (f1 n f2 : Nat), n ≤ f1 → n ≤ f2 →
    natCharsF f1 n = natCharsF f2 n := by
  intro f1
  induction f1 with
  | zero =>
      intro n f2 h1 _h2
      have hn : n = 0 := by omega
      subst hn
      cases f2 with
      | zero => rfl
      | succ f => rfl
  | succ f ih =>
      intro n f2 h1 h2
      cases f2 with
      | zero =>
          have hn : n = 0 := by omega
          subst hn
          rfl
      | succ g =>
          by_cases hn : n < 10
          · simp only [natCharsF, if_pos hn]
          · simp only [natCharsF, if_neg hn]
            rw [ih (n / 10) g (by omega) (by omega)]

/-- The recursive unfolding of `natChars`. -/
theorem natChars_eq (n : Nat) :
    natChars n = if n < 10 then [Char.ofNat (48 + n)]
      else natChars (n / 10) ++ [Char.ofNat (48 + n % 10)] := by
  by_cases hn : n < 10
  · rw [if_pos hn]
    cases n with
    | zero => rfl
    | succ k => simp only [natChars, natCharsF, if_pos hn]
  · rw [if_neg hn]
    cases n with
    | zero => omega
    | succ k =>
        show natCharsF (k + 1) (k + 1) = _
        simp only [natCharsF, if_neg hn]
        rw [natCharsF_fuel k ((k + 1) / 10) ((k + 1) / 10) (by omega) le_rfl]
        rfl

/-- `str(n)` for a non-negative integer. -/
def natToStr (n : Nat) : String := ⟨natChars n⟩

/-- `str(v)` for an integer. -/
def intToStr (v : ℤ) : String :=
  if v < 0 then ⟨'-' :: natChars v.natAbs⟩ else ⟨natChars v.natAbs⟩

def digitVal (c : Char) : Option Nat :=
  if 48 ≤ c.toNat ∧ c.toNat ≤ 57 then some (c.toNat - 48) else none

def parseAcc : Nat → List Char → Option Nat
  | acc, [] => some acc
  | acc, c :: r =>
      match digitVal c with
      | some d => parseAcc (acc * 10 + d) r
      | none => none

def parseNat : List Char → Option Nat
  | [] => none
  | c :: r => parseAcc 0 (c :: r)

/-- Python `int(s)`: an optional sign followed by at least one digit. -/
def pyInt (s : String) : Option ℤ :=
  match s.data with
  | [] => none
  | c :: r =>
      if c = '-' then (parseNat r).map (fun n => -(n : ℤ))
      else if c = '+' then (parseNat r).map (fun n => (n : ℤ))
      else (parseNat (c :: r)).map (fun n => (n : ℤ))

/-- Python `s[-n:]` for `n > 0`: the last `n` characters (all of `s` when
it is shorter). -/
def pyTakeRight (s : String) (n : Nat) : String :=
  ⟨s.data.drop (s.data.length - n)⟩

/-- Python `str.replace('.', '')`. -/
def stripDot (s : String) : String := ⟨s.data.filter (fun c => c != '.')⟩

/-- The two digits after the decimal point of `|v|/100`. -/
def twoDigits (r : Nat) : List Char :=
  [Char.ofNat (48 + r / 10), Char.ofNat (48 + r % 10)]

/-- Python `'{:w.2f}'.format(v / 100)` for an integer `v`: sign, integer
part, decimal point and exactly two decimals, left-padded with spaces to
width `w`. -/
def fmtFixed2 (v : ℤ) (width : Nat) : String :=
  let body := (if v < 0 then ['-'] else []) ++ natChars (v.natAbs / 100) ++
    '.' :: twoDigits (v.natAbs % 100)
  ⟨List.replicate (width - body.length) ' ' ++ body⟩

/-- Python `'{:wd}'.format(d)` for a natural `d`: left-padded decimal. -/
def fmtNatWidth (d : Nat) (w : Nat) : String :=
  ⟨List.replicate (w - (natChars d).length) ' ' ++ natChars d⟩

theorem parseAcc_append (xs : List Char) : ∀ (a : Nat) (ys : List Char),
    parseAcc a (xs ++ ys) = (parseAcc a xs).bind (fun b => parseAcc b ys) := by
  induction xs with
  | nil => intro a ys; rfl
  | cons c r ih =>
      intro a ys
      cases hd : digitVal c with
      | some d => simp [parseAcc, hd, ih]
      | none => simp [parseAcc, hd]

theorem digitVal_ofNat (d : Nat) (h : d < 10) :
    digitVal (Char.ofNat (48 + d)) = some d := by
  interval_cases d <;> decide

theorem parseAcc_natChars (n : Nat) : ∀ a : Nat,
    parseAcc a (natChars n) = some (a * 10 ^ (natChars n).length + n) := by
  induction n using Nat.strong_induction_on with
  | _ n ih =>
      intro a
      by_cases h : n < 10
      · rw [natChars_eq, if_pos h]
        simp only [parseAcc, digitVal_ofNat n h, List.length_singleton]
        norm_num
      · have h10 : n / 10 < n := Nat.div_lt_self (by omega) (by omega)
        have hmod : n % 10 < 10 := Nat.mod_lt _ (by omega)
        rw [natChars_eq, if_neg h, parseAcc_append, ih (n / 10) h10 a]
        simp only [Option.bind_some, Option.some_bind, parseAcc, digitVal_ofNat _ hmod,
          List.length_append, List.length_singleton]
        congr 1
        have hdm : n / 10 * 10 + n % 10 = n := by omega
        generalize (natChars (n / 10)).length = k
        calc (a * 10 ^ k + n / 10) * 10 + n % 10
            = a * (10 ^ k * 10) + (n / 10 * 10 + n % 10) := by ring
          _ = a * 10 ^ (k + 1) + n := by rw [hdm, pow_succ]

theorem natChars_head (n : Nat) : ∃ d r, natChars n = Char.ofNat (48 + d) :: r ∧ d < 10 := by
  induction n using Nat.strong_induction_on with
  | _ n ih =>
      by_cases h : n < 10
      · exact ⟨n, [], by rw [natChars_eq, if_pos h], h⟩
      · obtain ⟨d, r, hh, hd⟩ := ih (n / 10) (Nat.div_lt_self (by omega) (by omega))
        exact ⟨d, r ++ [Char.ofNat (48 + n % 10)],
          by rw [natChars_eq, if_neg h, hh, List.cons_append], hd⟩

theorem parseNat_natChars (n : Nat) : parseNat (natChars n) = some n := by
  obtain ⟨d, r, hh, _⟩ := natChars_head n
  rw [hh, parseNat, ← hh, parseAcc_natChars n 0]
  simp

/-- `int(str(v)) = v`: parsing the decimal rendering of an integer
recovers it. -/
theorem pyInt_mk_cons (c : Char) (r : List Char) :
    pyInt ⟨c :: r⟩ =
      (if c = '-' then (parseNat r).map (fun n => -(n : ℤ))
       else if c = '+' then (parseNat r).map (fun n => (n : ℤ))
       else (parseNat (c :: r)).map (fun n => (n : ℤ))) := rfl

/-- `int(str(v)) = v`: parsing the decimal rendering of an integer
recovers it. -/
theorem pyInt_intToStr (v : ℤ) : pyInt (intToStr v) = some v := by
  obtain ⟨d, r, hh, hd⟩ := natChars_head v.natAbs
  have hdm : Char.ofNat (48 + d) ≠ '-' ∧ Char.ofNat (48 + d) ≠ '+' := by
    interval_cases d <;> exact ⟨by decide, by decide⟩
  by_cases hv : v < 0
  · have e : intToStr v = ⟨'-' :: natChars v.natAbs⟩ := by
      unfold intToStr; rw [if_pos hv]
    rw [e, pyInt_mk_cons, if_pos rfl, parseNat_natChars]
    show some (-(v.natAbs : ℤ)) = some v
    congr 1
    omega
  · have e : intToStr v = ⟨natChars v.natAbs⟩ := by
      unfold intToStr; rw [if_neg hv]
    rw [e, hh, pyInt_mk_cons, if_neg hdm.1, if_neg hdm.2, ← hh, parseNat_natChars]
    show some ((v.natAbs : ℤ)) = some v
    congr 1
    omega

theorem natChars_length (k : Nat) : ∀ n : Nat, n < 10 ^ (k + 1) →
    (natChars n).length ≤ k + 1 := by
  induction k with
  | zero =>
      intro n h
      rw [natChars_eq, if_pos (by norm_num at h; omega)]
      rfl
  | succ k ih =>
      intro n h
      by_cases hn : n < 10
      · rw [natChars_eq, if_pos hn]
        simp only [List.length_singleton]
        omega
      · rw [natChars_eq, if_neg hn]
        rw [List.length_append, List.length_singleton]
        have : n / 10 < 10 ^ (k + 1) := by
          rw [Nat.div_lt_iff_lt_mul (by omega)]
          calc n < 10 ^ (k + 1 + 1) := h
          _ = 10 ^ (k + 1) * 10 := by rw [pow_succ]
        have := ih (n / 10) this
        omega

end Display

namespace Display

/-- A display text object as produced by the external `DgtTranslate.text`
table: three width renderings (`l`/`m`/`s`), plus the mutable `beep`,
`wait`, `maxtime` and `rd` (dot icon) attributes the display code sets on
it. -/
structure TextObj where
  l : String
  m : String
  s : String
  beep : Bool
  wait : Bool
  maxtime : ℚ
  rd : Bool
  deriving DecidableEq, Repr

/-- Modelled from the spec: the translation table (`dgt/translate.py`) is
an external collaborator; for the `N10_score` key it renders the raw
centipawn integer (or a non-numeric placeholder when no score is known)
into all three width fields, with no beep/wait/maxtime set. -/
def text_score (v : Option ℤ) : TextObj :=
  match v with
  | some x => { l := intToStr x, m := intToStr x, s := intToStr x,
                beep := false, wait := false, maxtime := 0, rd := false }
  | none => { l := "score", m := "score", s := "score",
              beep := false, wait := false, maxtime := 0, rd := false }

/-- Python exceptions that can escape the display handlers uncaught:
`TypeError` (formatting a `None` depth), `ValueError` (unpacking a
malformed position / `chess.Board` rejecting a string), `IndexError`
(indexing a shrunk engine or time-control list outside a `try`). -/
inductive PyErr where
  | typeError
  | valueError
  | indexError
  deriving DecidableEq, Repr

/-- `_score_to_string` (dgt/display.py lines 89-95): parse the string as
an integer (`none` = `ValueError`), divide by 100, format with two
decimals at width 5/7/9 and drop the decimal point. -/
def score_to_string (score_val : String) (length : Char) : Option String :=
  (pyInt score_val).map (fun v =>
    if length = 's' then stripDot (fmtFixed2 v 5)
    else if length = 'm' then stripDot (fmtFixed2 v 7)
    else stripDot (fmtFixed2 v 9))

/-- `_combine_depth_and_score` (dgt/display.py lines 88-109).  Works on a
copy of the stored score text (`copy.copy`), so the stored object is never
mutated; the `try` block clamps the short field at ±999, then rebuilds the
long/medium/short fields from a depth prefix (raw at width 3 for long,
modulo 100 at width 2 for medium/short) and the reformatted score; a
`ValueError` from any `int()` conversion aborts the block, keeping the
fields assigned so far; a `None` depth raises an uncaught `TypeError`. -/
def combine_depth_and_score (score0 : TextObj) (depth : Option Nat) :
    Except PyErr TextObj :=
  let sc := score0
  match pyInt sc.s with
  | none => Except.ok sc
  | some v1 =>
    let sc := if v1 ≤ -1000 then { sc with s := "-999" } else sc
    match pyInt sc.s with
    | none => Except.ok sc
    | some v2 =>
      let sc := if 1000 ≤ v2 then { sc with s := "999" } else sc
      match score_to_string (pyTakeRight sc.l 8) 'l' with
      | none => Except.ok sc
      | some lstr =>
        match depth with
        | none => Except.error PyErr.typeError
        | some d =>
          let sc := { sc with l := ⟨(fmtNatWidth d 3).data ++ lstr.data⟩ }
          match score_to_string (pyTakeRight sc.m 6) 'm' with
          | none => Except.ok sc
          | some mstr =>
            let sc := { sc with m := ⟨(fmtNatWidth (d % 100) 2).data ++ mstr.data⟩ }
            match score_to_string (pyTakeRight sc.s 4) 's' with
            | none => Except.ok sc
            | some sstr =>
              let sc := { sc with s := ⟨(fmtNatWidth (d % 100) 2).data ++ sstr.data⟩ }
              Except.ok { sc with rd := true }

end Display


namespace Display

/-- The short-field clamp of `_combine_depth_and_score`: raw centipawn
values at or beyond ±1000 are replaced by ±999. -/
def clamp999 (v : ℤ) : ℤ :=
  if v ≤ -1000 then -999 else if 1000 ≤ v then 999 else v

theorem intToStr_length_le (v : ℤ) (k : Nat) (h : v.natAbs < 10 ^ (k + 1)) :
    (intToStr v).data.length ≤ k + 2 := by
  have hn := natChars_length k v.natAbs h
  unfold intToStr
  split
  · show ('-' :: natChars v.natAbs).length ≤ k + 2
    simp only [List.length_cons]
    omega
  · show (natChars v.natAbs).length ≤ k + 2
    omega

theorem pyTakeRight_all (s : String) (n : Nat) (h : s.data.length ≤ n) :
    pyTakeRight s n = s := by
  unfold pyTakeRight
  rw [Nat.sub_eq_zero_of_le h, List.drop_zero]

/-- C6: when the numeric conversion of the stored short score string fails
(`ValueError` from `int`), `_combine_depth_and_score` returns normally with
the previous score text unchanged, and the stored score field is untouched
(the function works on a copy). -/
theorem C6_conversion_failure_keeps_score (sc : TextObj) (depth : Option Nat)
    (h : pyInt sc.s = none) :
    combine_depth_and_score sc depth = Except.ok sc := by
  unfold combine_depth_and_score
  simp only [h]

/-- Witness for C6: the initial `N10_score` placeholder text (no score yet)
is returned unchanged, with no exception, even with no depth known. -/
theorem C6_conversion_failure_keeps_score_witness :
    pyInt (text_score none).s = none ∧
    combine_depth_and_score (text_score none) none = Except.ok (text_score none) :=
  ⟨by rfl, C6_conversion_failure_keeps_score (text_score none) none (by rfl)⟩

/-- Counterexample to C5: raw centipawn score −1500 at depth 12.  Only the
short field is clamped to magnitude 999 (`12-999`); the medium and long
variants render the unclamped magnitude 1500 (`12 -1500`, ` 12   -1500`),
not the boundary 999 — so the claim that each of the three width variants
displays the clamped boundary magnitude is false. -/
theorem C5_counterexample :
    combine_depth_and_score (text_score (some (-1500))) (some 12) =
      Except.ok { l := " 12   -1500", m := "12 -1500", s := "12-999",
                  beep := false, wait := false, maxtime := 0, rd := true } ∧
    (" 12   -1500" : String) ≠ " 12    -999" ∧ ("12 -1500" : String) ≠ "12  -999" := by
  exact ⟨by rfl, by decide, by decide⟩

end Display

namespace Display

theorem score_to_string_l (x : String) (v : ℤ) (h : pyInt x = some v) :
    score_to_string x 'l' = some (stripDot (fmtFixed2 v 9)) := by
  unfold score_to_string
  rw [h]
  rfl

theorem score_to_string_m (x : String) (v : ℤ) (h : pyInt x = some v) :
    score_to_string x 'm' = some (stripDot (fmtFixed2 v 7)) := by
  unfold score_to_string
  rw [h]
  rfl

theorem score_to_string_s (x : String) (v : ℤ) (h : pyInt x = some v) :
    score_to_string x 's' = some (stripDot (fmtFixed2 v 5)) := by
  unfold score_to_string
  rw [h]
  rfl

/-- C5 (amended): for raw centipawn scores of at most four digits at any
depth, `_combine_depth_and_score` renders each width variant as the score
divided by 100 with two decimals and the decimal point dropped, prefixed
by the depth (raw at width 3 for the long form, modulo 100 at width 2 for
the medium and short forms) — but the ±999 clamp of out-of-range values is
applied only to the short variant; the medium and long variants render the
unclamped value. -/
theorem C5_depth_score_rendering (v : ℤ) (d : Nat) (bp wt : Bool) (mt : ℚ) (rdv : Bool)
    (hv : v.natAbs ≤ 9999) :
    combine_depth_and_score ⟨intToStr v, intToStr v, intToStr v, bp, wt, mt, rdv⟩ (some d) =
      Except.ok ⟨⟨(fmtNatWidth d 3).data ++ (stripDot (fmtFixed2 v 9)).data⟩,
                 ⟨(fmtNatWidth (d % 100) 2).data ++ (stripDot (fmtFixed2 v 7)).data⟩,
                 ⟨(fmtNatWidth (d % 100) 2).data ++ (stripDot (fmtFixed2 (clamp999 v) 5)).data⟩,
                 bp, wt, mt, true⟩ := by
  have hlen : (intToStr v).data.length ≤ 5 :=
    intToStr_length_le v 3 (by norm_num; omega)
  have htr8 : pyTakeRight (intToStr v) 8 = intToStr v :=
    pyTakeRight_all _ _ (by omega)
  have htr6 : pyTakeRight (intToStr v) 6 = intToStr v :=
    pyTakeRight_all _ _ (by omega)
  have hsl : score_to_string (pyTakeRight (intToStr v) 8) 'l' =
      some (stripDot (fmtFixed2 v 9)) := by
    rw [htr8]; exact score_to_string_l _ v (pyInt_intToStr v)
  have hsm : score_to_string (pyTakeRight (intToStr v) 6) 'm' =
      some (stripDot (fmtFixed2 v 7)) := by
    rw [htr6]; exact score_to_string_m _ v (pyInt_intToStr v)
  unfold combine_depth_and_score
  simp only [pyInt_intToStr]
  by_cases h1 : v ≤ -1000
  · have hcl : clamp999 v = -999 := by unfold clamp999; rw [if_pos h1]
    rw [if_pos h1]
    simp only [hcl, show pyInt "-999" = some (-999) from rfl,
      show ¬(1000 : ℤ) ≤ -999 by omega, if_false, hsl, hsm,
      show score_to_string (pyTakeRight "-999" 4) 's' =
        some (stripDot (fmtFixed2 (-999) 5)) from rfl]
  · rw [if_neg h1]
    simp only [pyInt_intToStr]
    by_cases h2 : (1000 : ℤ) ≤ v
    · have hcl : clamp999 v = 999 := by
        unfold clamp999; rw [if_neg h1, if_pos h2]
      rw [if_pos h2]
      simp only [hcl, hsl, hsm,
        show score_to_string (pyTakeRight "999" 4) 's' =
          some (stripDot (fmtFixed2 999 5)) from rfl]
    · have hcl : clamp999 v = v := by
        unfold clamp999; rw [if_neg h1, if_neg h2]
      have hlen4 : (intToStr v).data.length ≤ 4 :=
        intToStr_length_le v 2 (by norm_num; omega)
      have htr4 : pyTakeRight (intToStr v) 4 = intToStr v :=
        pyTakeRight_all _ _ (by omega)
      have hss : score_to_string (pyTakeRight (intToStr v) 4) 's' =
          some (stripDot (fmtFixed2 v 5)) := by
        rw [htr4]; exact score_to_string_s _ v (pyInt_intToStr v)
      rw [if_neg h2]
      simp only [hcl, hsl, hsm, hss]

/-- Witness for the amended C5: raw score 1500 at depth 12 — short variant
clamps to 999, long variant shows 1500. -/
theorem C5_depth_score_rendering_witness :
    combine_depth_and_score ⟨"1500", "1500", "1500", false, false, 0, false⟩ (some 12) =
      Except.ok ⟨" 12    1500", "12  1500", "12 999", false, false, 0, true⟩ := by
  have h := C5_depth_score_rendering 1500 12 false false 0 false (by norm_num)
  exact (by rfl : combine_depth_and_score ⟨"1500", "1500", "1500", false, false, 0, false⟩
      (some 12) = combine_depth_and_score ⟨intToStr 1500, intToStr 1500, intToStr 1500,
      false, false, 0, false⟩ (some 12)).trans (h.trans (by rfl))

end Display

namespace Display

/-- Interaction modes (`dgt/util.py` `Mode`, as used in dgt/display.py). -/
inductive Mode where
  | NORMAL
  | ANALYSIS
  | KIBITZ
  | OBSERVE
  | REMOTE
  | PONDER
  deriving DecidableEq, Repr

/-- Time-control families. -/
inductive TimeMode where
  | FIXED
  | BLITZ
  | FISCHER
  deriving DecidableEq, Repr

/-- Draw/resign gesture results. -/
inductive GameResult where
  | WIN_WHITE
  | WIN_BLACK
  | DRAW
  deriving DecidableEq, Repr

/-- Modelled from the spec: the generic translation-table call
`dgttranslate.text(key, msg)` (external, §2/§6) yields a display text
object rendering the key and payload, with no beep/wait/maxtime preset. -/
def tText (key msg : String) : TextObj :=
  { l := key ++ msg, m := key ++ msg, s := key ++ msg,
    beep := false, wait := false, maxtime := 0, rd := false }

/-- Modelled from the spec: the beep configuration of the external
translation object — `dgttranslate.bl(level)` per beep level. -/
structure DgtTranslate where
  bl_button : Bool
  bl_map : Bool
  bl_no : Bool
  bl_config : Bool
  deriving DecidableEq, Repr

/-- An installed-engine record as the menu holds it (`eng['file']`,
`eng['text']`, `eng['level_dict']`); the level dictionary is abstracted to
its sorted key list (the code only uses `len(level_dict)`,
`sorted(level_dict)[i]` and the option payload of a key). -/
structure EngineRec where
  file : String
  text : TextObj
  level_dict : List String
  deriving DecidableEq, Repr

/-- An opening-book record (`book['file']`, `book['text']`). -/
structure BookRec where
  file : String
  text : TextObj
  deriving DecidableEq, Repr

/-- Modelled from the spec: `MenuState` (dgt/menu.py, an external
collaborator per §2) — current mode, selected indices, flip flag, stored
last position, time-control tables, confirm flag, engine-restart flag,
plus the results its navigation calls (`up`/`down`/`left`/`right`) and
`get_current_text` would return; `enter_top_menu` and
`set_position_reverse_to_flipboard` are tracked as markers. -/
structure DgtMenu where
  inside : Bool
  confirm : Bool
  engine_restart : Bool
  flip_board : Bool
  position_reverse : Bool
  menu_top : Bool
  dgt_fen : Option String
  engine_level : Option Nat
  engine_index : Nat
  installed_engines : List EngineRec
  engine_has_960 : Bool
  all_books : List BookRec
  book_index : Nat
  mode : Mode
  time_mode : TimeMode
  time_fixed : Nat
  time_blitz : Nat
  time_fisch : Nat
  tc_fixed_map : List (String × String)
  tc_blitz_map : List (String × String)
  tc_fisch_map : List (String × String)
  tc_fixed_list : List String
  tc_blitz_list : List String
  tc_fisch_list : List String
  current_text : Option TextObj
  up_result : Option TextObj
  down_result : Option TextObj
  left_result : TextObj
  right_result : TextObj
  ponderinterval : Nat
  deriving DecidableEq, Repr

/-- The session state of `DgtDisplay` (dgt/display.py lines 40-55). -/
structure DgtDisplay where
  menu : DgtMenu
  trans : DgtTranslate
  engine_finished : Bool
  drawresign_fen : Option String
  show_move_or_value : Nat
  leds_are_on : Bool
  play_move : Option String
  play_fen : Option String
  play_turn : Option Bool
  hint_move : Option String
  hint_fen : Option String
  hint_turn : Option Bool
  last_move : Option String
  last_fen : Option String
  last_turn : Option Bool
  score : TextObj
  depth : Option Nat
  deriving DecidableEq, Repr

/-- Events fired back into the event system (`Observable.fire`). -/
inductive Ev where
  | LEVEL (msg : String) (text : TextObj)
  | SET_OPENING_BOOK (file : String) (text : TextObj)
  | NEW_ENGINE (file : String) (text : TextObj)
  | SET_INTERACTION_MODE (m : Mode) (text : TextObj)
  | SET_TIME_CONTROL (tc : String) (text : TextObj)
  | DRAWRESIGN (r : GameResult)
  | NEW_GAME (pos960 : Nat)
  | FEN (fen : String)
  | SHUTDOWN (dev : String)
  | REBOOT (dev : String)
  | ALTERNATIVE_MOVE
  | PAUSE_RESUME
  | SWITCH_SIDES (engine_finished : Bool)
  | EXIT_MENU
  deriving DecidableEq, Repr

/-- Display commands fired towards the dispatcher (`DispatchDgt.fire`). -/
inductive DOut where
  | text (t : TextObj)
  | displayMove (move : Option String) (fen : Option String) (turn : Option Bool)
      (wait : Bool) (maxtime : ℚ) (beep : Bool)
  | displayTime (force : Bool) (wait : Bool)
  deriving DecidableEq, Repr

/-- One observable side effect of a display handler: an event, a display
command, or a `picochess.ini` `engine-level` persistence write. -/
inductive Eff where
  | ev (e : Ev)
  | out (d : DOut)
  | cfg (v : Option String)
  deriving DecidableEq, Repr

/-- `fen[::-1]`. -/
def strRev (s : String) : String := ⟨s.data.reverse⟩

/-- Split a raw position string at `/` (structural, for `_drawresign`'s
`self.dgtmenu.get_dgt_fen().split('/')`). -/
def splitSlash : List Char → List (List Char)
  | [] => [[]]
  | c :: r =>
      if c = '/' then [] :: splitSlash r
      else
        match splitSlash r with
        | h :: t => (c :: h) :: t
        | [] => [[c]]

/-- `DgtDisplay._drawresign` (dgt/display.py lines 592-594): the 2-rank
slice of the stored position; `none` models the `ValueError` of unpacking
a string without exactly 8 ranks. -/
def drawresign (fen : String) : Option String :=
  match splitSlash fen.data with
  | [_, _, _, rnk5, rnk4, _, _, _] =>
      some ⟨"8/8/8/".data ++ rnk5 ++ "/".data ++ rnk4 ++ "/8/8/8".data⟩
  | _ => none

/-- `DgtDisplay._exit_menu` (dgt/display.py lines 57-63): inside the menu,
navigate to the top menu and report `True` when confirmation display is
off. -/
def exit_menu (m : DgtMenu) : DgtMenu × Bool :=
  if m.inside then
    let m1 := { m with menu_top := true }
    if ¬m.confirm then (m1, true) else (m1, false)
  else (m, false)

theorem exit_menu_engine_level (m : DgtMenu) :
    (exit_menu m).1.engine_level = m.engine_level := by
  unfold exit_menu
  split
  · split <;> rfl
  · rfl

end Display

namespace Display

/-- The eight level-selection gesture positions (dgt/display.py 212-219). -/
def level_map : List String :=
  ["rnbqkbnr/pppppppp/8/q7/8/8/PPPPPPPP/RNBQKBNR",
   "rnbqkbnr/pppppppp/8/1q6/8/8/PPPPPPPP/RNBQKBNR",
   "rnbqkbnr/pppppppp/8/2q5/8/8/PPPPPPPP/RNBQKBNR",
   "rnbqkbnr/pppppppp/8/3q4/8/8/PPPPPPPP/RNBQKBNR",
   "rnbqkbnr/pppppppp/8/4q3/8/8/PPPPPPPP/RNBQKBNR",
   "rnbqkbnr/pppppppp/8/5q2/8/8/PPPPPPPP/RNBQKBNR",
   "rnbqkbnr/pppppppp/8/6q1/8/8/PPPPPPPP/RNBQKBNR",
   "rnbqkbnr/pppppppp/8/7q/8/8/PPPPPPPP/RNBQKBNR"]

/-- The sixteen opening-book gesture positions (dgt/display.py 221-236). -/
def book_map : List String :=
  ["rnbqkbnr/pppppppp/8/8/8/q7/PPPPPPPP/RNBQKBNR",
   "rnbqkbnr/pppppppp/8/8/8/1q6/PPPPPPPP/RNBQKBNR",
   "rnbqkbnr/pppppppp/8/8/8/2q5/PPPPPPPP/RNBQKBNR",
   "rnbqkbnr/pppppppp/8/8/8/3q4/PPPPPPPP/RNBQKBNR",
   "rnbqkbnr/pppppppp/8/8/8/4q3/PPPPPPPP/RNBQKBNR",
   "rnbqkbnr/pppppppp/8/8/8/5q2/PPPPPPPP/RNBQKBNR",
   "rnbqkbnr/pppppppp/8/8/8/6q1/PPPPPPPP/RNBQKBNR",
   "rnbqkbnr/pppppppp/8/8/8/7q/PPPPPPPP/RNBQKBNR",
   "rnbqkbnr/pppppppp/8/8/q7/8/PPPPPPPP/RNBQKBNR",
   "rnbqkbnr/pppppppp/8/8/1q6/8/PPPPPPPP/RNBQKBNR",
   "rnbqkbnr/pppppppp/8/8/2q5/8/PPPPPPPP/RNBQKBNR",
   "rnbqkbnr/pppppppp/8/8/3q4/8/PPPPPPPP/RNBQKBNR",
   "rnbqkbnr/pppppppp/8/8/4q3/8/PPPPPPPP/RNBQKBNR",
   "rnbqkbnr/pppppppp/8/8/5q2/8/PPPPPPPP/RNBQKBNR",
   "rnbqkbnr/pppppppp/8/8/6q1/8/PPPPPPPP/RNBQKBNR",
   "rnbqkbnr/pppppppp/8/8/7q/8/PPPPPPPP/RNBQKBNR"]

/-- The eight engine-selection gesture positions (dgt/display.py 238-245). -/
def engine_map : List String :=
  ["rnbqkbnr/pppppppp/q7/8/8/8/PPPPPPPP/RNBQKBNR",
   "rnbqkbnr/pppppppp/1q6/8/8/8/PPPPPPPP/RNBQKBNR",
   "rnbqkbnr/pppppppp/2q5/8/8/8/PPPPPPPP/RNBQKBNR",
   "rnbqkbnr/pppppppp/3q4/8/8/8/PPPPPPPP/RNBQKBNR",
   "rnbqkbnr/pppppppp/4q3/8/8/8/PPPPPPPP/RNBQKBNR",
   "rnbqkbnr/pppppppp/5q2/8/8/8/PPPPPPPP/RNBQKBNR",
   "rnbqkbnr/pppppppp/6q1/8/8/8/PPPPPPPP/RNBQKBNR",
   "rnbqkbnr/pppppppp/7q/8/8/8/PPPPPPPP/RNBQKBNR"]

/-- Shutdown confirmation gestures (dgt/display.py 247-250). -/
def shutdown_map : List String :=
  ["rnbqkbnr/pppppppp/8/8/8/8/PPPPPPPP/RNBQQBNR",
   "RNBQQBNR/PPPPPPPP/8/8/8/8/pppppppp/rnbkqbnr",
   "8/8/8/8/8/8/8/3QQ3",
   "3QQ3/8/8/8/8/8/8/8"]

/-- Reboot confirmation gestures (dgt/display.py 252-255). -/
def reboot_map : List String :=
  ["rnbqqbnr/pppppppp/8/8/8/8/PPPPPPPP/RNBQKBNR",
   "RNBKQBNR/PPPPPPPP/8/8/8/8/pppppppp/rnbqqbnr",
   "8/8/8/8/8/8/8/3qq3",
   "3qq3/8/8/8/8/8/8/8"]

/-- Interaction-mode gestures (white queen on rank 5, dgt/display.py
257-262). -/
def mode_map : List (String × Mode) :=
  [("rnbqkbnr/pppppppp/8/Q7/8/8/PPPPPPPP/RNBQKBNR", Mode.NORMAL),
   ("rnbqkbnr/pppppppp/8/1Q6/8/8/PPPPPPPP/RNBQKBNR", Mode.ANALYSIS),
   ("rnbqkbnr/pppppppp/8/2Q5/8/8/PPPPPPPP/RNBQKBNR", Mode.KIBITZ),
   ("rnbqkbnr/pppppppp/8/3Q4/8/8/PPPPPPPP/RNBQKBNR", Mode.OBSERVE),
   ("rnbqkbnr/pppppppp/8/4Q3/8/8/PPPPPPPP/RNBQKBNR", Mode.REMOTE),
   ("rnbqkbnr/pppppppp/8/5Q2/8/8/PPPPPPPP/RNBQKBNR", Mode.PONDER)]

/-- Draw/resign gesture slices (dgt/display.py 264-271). -/
def drawresign_map : List (String × GameResult) :=
  [("8/8/8/3k4/4K3/8/8/8", GameResult.WIN_WHITE),
   ("8/8/8/3K4/4k3/8/8/8", GameResult.WIN_WHITE),
   ("8/8/8/4k3/3K4/8/8/8", GameResult.WIN_BLACK),
   ("8/8/8/4K3/3k4/8/8/8", GameResult.WIN_BLACK),
   ("8/8/8/3kK3/8/8/8/8", GameResult.DRAW),
   ("8/8/8/3Kk3/8/8/8/8", GameResult.DRAW),
   ("8/8/8/8/3kK3/8/8/8", GameResult.DRAW),
   ("8/8/8/8/3Kk3/8/8/8", GameResult.DRAW)]

/-- The standing flip instruction (dgt/display.py line 275). -/
def flipTrigger : String := "RNBKQBNR/PPPPPPPP/8/8/8/8/pppppppp/rnbkqbnr"

/-- The spec-modelled text keys of `mode.value` passed to the translation
table for the mode acknowledgement. -/
def modeKey : Mode → String
  | Mode.NORMAL => "B00_mode_normal_menu"
  | Mode.ANALYSIS => "B00_mode_analysis_menu"
  | Mode.KIBITZ => "B00_mode_kibitz_menu"
  | Mode.OBSERVE => "B00_mode_observe_menu"
  | Mode.REMOTE => "B00_mode_remote_menu"
  | Mode.PONDER => "B00_mode_ponder_menu"

/-- The flip normalization at the top of `_process_fen` (dgt/display.py
lines 273-278): reverse the raw string when the board is flipped, then
detect the standing flip instruction, persist the flip decision and
reverse again. -/
def fen_after_flip (menu : DgtMenu) (fen0 : String) (raw : Bool) : String :=
  let fen1 := if menu.flip_board && raw then strRev fen0 else fen0
  if fen1 = flipTrigger then strRev fen1 else fen1

/-- The menu effect of the same normalization (the persisted flip
decision). -/
def menu_after_flip (menu : DgtMenu) (fen0 : String) (raw : Bool) : DgtMenu :=
  let fen1 := if menu.flip_board && raw then strRev fen0 else fen0
  if fen1 = flipTrigger then { menu with position_reverse := true } else menu

/-- The level-selection branch of `_process_fen` (dgt/display.py lines
286-302). -/
def process_fen_level (st : DgtDisplay) (fen : String) :
    Except PyErr (DgtDisplay × List Eff) :=
  match st.menu.installed_engines.get? st.menu.engine_index with
  | none => Except.error PyErr.indexError
  | some eng =>
      let level_dict := eng.level_dict
      if level_dict.isEmpty then Except.ok (st, [])
      else
        let inc := (level_dict.length + 7) / 8
        let level := min (inc * level_map.indexOf fen) (level_dict.length - 1)
        let st1 := { st with menu := { st.menu with engine_level := some level } }
        let msg := level_dict.getD level ""
        let p := exit_menu st1.menu
        let text := { tText "M10_level" msg with wait := p.2 }
        let st2 := { st1 with menu := p.1 }
        Except.ok (st2, [Eff.cfg (some msg), Eff.ev (Ev.LEVEL msg text)])

/-- The opening-book branch (dgt/display.py lines 303-315). -/
def process_fen_book (st : DgtDisplay) (fen : String) :
    Except PyErr (DgtDisplay × List Eff) :=
  let book_index := book_map.indexOf fen
  match st.menu.all_books.get? book_index with
  | none => Except.ok (st, [])
  | some book =>
      let st1 := { st with menu := { st.menu with book_index := book_index } }
      let p := exit_menu st1.menu
      let text := { book.text with beep := st.trans.bl_map, maxtime := 1, wait := p.2 }
      let st2 := { st1 with menu := p.1 }
      Except.ok (st2, [Eff.ev (Ev.SET_OPENING_BOOK book.file text)])

/-- The engine-selection branch (dgt/display.py lines 316-345). -/
def process_fen_engine (st : DgtDisplay) (fen : String) :
    Except PyErr (DgtDisplay × List Eff) :=
  if st.menu.installed_engines.isEmpty then
    Except.ok (st, [Eff.out (DOut.text (tText "Y00_erroreng" ""))])
  else
    let idx := engine_map.indexOf fen
    let st1 := { st with menu := { st.menu with engine_index := idx } }
    match st1.menu.installed_engines.get? idx with
    | none => Except.ok (st1, [])
    | some eng =>
        let p := exit_menu st1.menu
        let eng_text := { eng.text with beep := st.trans.bl_map, maxtime := 1, wait := p.2 }
        let st2 := { st1 with menu := p.1 }
        if eng.level_dict.isEmpty then
          let st3 := { st2 with menu := { st2.menu with engine_restart := true } }
          Except.ok (st3, [Eff.cfg none, Eff.ev (Ev.NEW_ENGINE eng.file eng_text)])
        else
          let len_level := eng.level_dict.length
          let newLevel :=
            match st2.menu.engine_level with
            | none => len_level - 1
            | some lv => if len_level ≤ lv then len_level - 1 else lv
          let st3 := { st2 with menu := { st2.menu with engine_level := some newLevel } }
          let msg := eng.level_dict.getD newLevel ""
          let st4 := { st3 with menu := { st3.menu with engine_restart := true } }
          Except.ok (st4,
            [Eff.ev (Ev.LEVEL msg (tText "M10_level" msg)), Eff.cfg (some msg),
             Eff.ev (Ev.NEW_ENGINE eng.file eng_text)])

/-- The interaction-mode branch (dgt/display.py lines 346-353). -/
def process_fen_mode (st : DgtDisplay) (md : Mode) :
    Except PyErr (DgtDisplay × List Eff) :=
  let st1 := { st with menu := { st.menu with mode := md } }
  let p := exit_menu st1.menu
  let text := { tText (modeKey md) "" with beep := st.trans.bl_map, maxtime := 1, wait := p.2 }
  let st2 := { st1 with menu := p.1 }
  Except.ok (st2, [Eff.ev (Ev.SET_INTERACTION_MODE md text)])

/-- A time-control branch (dgt/display.py lines 354-377), parameterized by
the family; `key` is the translation key, `names` the menu's display-name
list (an out-of-range index raises an uncaught `IndexError`). -/
def process_fen_tc (st : DgtDisplay) (tm : TimeMode) (key : String)
    (names : List String) (idx : Nat) (tc : String) :
    Except PyErr (DgtDisplay × List Eff) :=
  let menu1 :=
    match tm with
    | TimeMode.FIXED => { st.menu with time_mode := tm, time_fixed := idx }
    | TimeMode.BLITZ => { st.menu with time_mode := tm, time_blitz := idx }
    | TimeMode.FISCHER => { st.menu with time_mode := tm, time_fisch := idx }
  let st1 := { st with menu := menu1 }
  match names.get? idx with
  | none => Except.error PyErr.indexError
  | some nm =>
      let p := exit_menu st1.menu
      let text := { tText key nm with wait := p.2 }
      let st2 := { st1 with menu := p.1 }
      Except.ok (st2, [Eff.ev (Ev.SET_TIME_CONTROL tc text)])

/-- `DgtDisplay._power_off` (dgt/display.py lines 65-68). -/
def power_off (st : DgtDisplay) (dev : String) : DgtDisplay × List Eff :=
  ({ st with menu := { st.menu with engine_restart := true } },
   [Eff.out (DOut.text (tText "Y10_goodbye" "")), Eff.ev (Ev.SHUTDOWN dev)])

/-- `DgtDisplay._reboot` (dgt/display.py lines 70-73). -/
def reboot (st : DgtDisplay) (dev : String) : DgtDisplay × List Eff :=
  ({ st with menu := { st.menu with engine_restart := true } },
   [Eff.out (DOut.text (tText "Y10_pleasewait" "")), Eff.ev (Ev.REBOOT dev)])

/-- The final position-parsing branch of `_process_fen` (dgt/display.py
lines 388-399).  `oracle fen` models `chess.Board(fen + ' w - - 0 1')`
followed by `chess960_pos(ignore_castling=True)`: `none` = the board
constructor raised, `some none` = no Chess960 start position, `some (some
p)` = start position number `p` (518 = the standard start). -/
def process_fen_board (oracle : String → Option (Option Nat)) (st : DgtDisplay)
    (fen : String) : Except PyErr (DgtDisplay × List Eff) :=
  match oracle fen with
  | none => Except.error PyErr.valueError
  | some none => Except.ok (st, [Eff.ev (Ev.FEN fen)])
  | some (some pos960) =>
      if pos960 = 518 || st.menu.engine_has_960 then
        Except.ok (st, [Eff.ev (Ev.NEW_GAME pos960)])
      else
        Except.ok (st, [Eff.out (DOut.text (tText "Y00_error960" ""))])

/-- `DgtDisplay._process_fen` (dgt/display.py lines 211-399): flip
normalization, idempotence check against the stored position, position
bookkeeping (`set_dgt_fen`, recomputed `drawresign_fen`), then the gesture
table dispatch in source order with the start-position parse as the final
fallback. -/
def process_fen (oracle : String → Option (Option Nat)) (st0 : DgtDisplay)
    (fen0 : String) (raw : Bool) : Except PyErr (DgtDisplay × List Eff) :=
  let fen := fen_after_flip st0.menu fen0 raw
  let st := { st0 with menu := menu_after_flip st0.menu fen0 raw }
  if some fen = st.menu.dgt_fen then Except.ok (st, [])
  else
    let st := { st with menu := { st.menu with dgt_fen := some fen } }
    match drawresign fen with
    | none => Except.error PyErr.valueError
    | some drf =>
        let st := { st with drawresign_fen := some drf }
        if fen ∈ level_map then process_fen_level st fen
        else if fen ∈ book_map then process_fen_book st fen
        else if fen ∈ engine_map then process_fen_engine st fen
        else
          match mode_map.lookup fen with
          | some md => process_fen_mode st md
          | none =>
              if (st.menu.tc_fixed_map.lookup fen).isSome then
                process_fen_tc st TimeMode.FIXED "M10_tc_fixed" st.menu.tc_fixed_list
                  ((st.menu.tc_fixed_map.map Prod.fst).indexOf fen)
                  ((st.menu.tc_fixed_map.lookup fen).getD "")
              else if (st.menu.tc_blitz_map.lookup fen).isSome then
                process_fen_tc st TimeMode.BLITZ "M10_tc_blitz" st.menu.tc_blitz_list
                  ((st.menu.tc_blitz_map.map Prod.fst).indexOf fen)
                  ((st.menu.tc_blitz_map.lookup fen).getD "")
              else if (st.menu.tc_fisch_map.lookup fen).isSome then
                process_fen_tc st TimeMode.FISCHER "M10_tc_fisch" st.menu.tc_fisch_list
                  ((st.menu.tc_fisch_map.map Prod.fst).indexOf fen)
                  ((st.menu.tc_fisch_map.lookup fen).getD "")
              else if fen ∈ shutdown_map then Except.ok (power_off st "web")
              else if fen ∈ reboot_map then Except.ok (reboot st "web")
              else
                match drawresign_map.lookup drf with
                | some r =>
                    if ¬st.menu.inside then Except.ok (st, [Eff.ev (Ev.DRAWRESIGN r)])
                    else Except.ok (st, [])
                | none => process_fen_board oracle st fen

end Display

namespace Display

/-- `DgtDisplay._exit_display` (dgt/display.py lines 596-609). -/
def exit_display (st : DgtDisplay) : List Eff :=
  if st.play_move.isSome ∧ (st.menu.mode = Mode.NORMAL ∨ st.menu.mode = Mode.REMOTE) then
    [Eff.out (DOut.displayMove st.play_move st.play_fen st.play_turn true 1 st.trans.bl_button)]
  else
    match (if st.menu.inside then st.menu.current_text else none) with
    | some t => [Eff.out (DOut.text { t with wait := true })]
    | none => [Eff.out (DOut.displayTime true true)]

/-- `_process_button0` (dgt/display.py lines 118-134). -/
def process_button0 (st : DgtDisplay) : DgtDisplay × List Eff :=
  if st.menu.inside then
    match st.menu.up_result with
    | some t => (st, [Eff.out (DOut.text t)])
    | none => (st, exit_display st)
  else
    let fire :=
      if st.last_move.isSome then
        [Eff.out (DOut.displayMove st.last_move st.last_fen st.last_turn false 1
          st.trans.bl_button)]
      else [Eff.out (DOut.text (tText "B10_nomove" ""))]
    (st, fire ++ exit_display st)

/-- `_process_button1` (dgt/display.py lines 136-145); combining depth and
score can raise an uncaught `TypeError` when no depth is known yet. -/
def process_button1 (st : DgtDisplay) : Except PyErr (DgtDisplay × List Eff) :=
  if st.menu.inside then Except.ok (st, [Eff.out (DOut.text st.menu.left_result)])
  else
    match combine_depth_and_score st.score st.depth with
    | Except.error e => Except.error e
    | Except.ok t =>
        Except.ok (st, [Eff.out (DOut.text { t with beep := st.trans.bl_button })] ++
          exit_display st)

/-- `_process_button2` (dgt/display.py lines 147-159). -/
def process_button2 (st : DgtDisplay) : DgtDisplay × List Eff :=
  if st.menu.mode = Mode.ANALYSIS ∨ st.menu.mode = Mode.KIBITZ ∨
      st.menu.mode = Mode.PONDER then
    (st, [Eff.out (DOut.text (tText "B00_nofunction" ""))])
  else
    if st.engine_finished then
      ({ st with engine_finished := false }, [Eff.ev Ev.ALTERNATIVE_MOVE])
    else
      (st, [Eff.ev Ev.PAUSE_RESUME])

/-- `_process_button3` (dgt/display.py lines 161-173). -/
def process_button3 (st : DgtDisplay) : DgtDisplay × List Eff :=
  if st.menu.inside then (st, [Eff.out (DOut.text st.menu.right_result)])
  else
    let fire :=
      if st.hint_move.isSome then
        [Eff.out (DOut.displayMove st.hint_move st.hint_fen st.hint_turn false 1
          st.trans.bl_button)]
      else [Eff.out (DOut.text (tText "B10_nomove" ""))]
    (st, fire ++ exit_display st)

/-- `_process_button4` (dgt/display.py lines 175-181). -/
def process_button4 (st : DgtDisplay) : DgtDisplay × List Eff :=
  match st.menu.down_result with
  | some t => (st, [Eff.out (DOut.text t)])
  | none => (st, [Eff.ev Ev.EXIT_MENU])

/-- `_process_lever` (dgt/display.py lines 183-189). -/
def process_lever (st : DgtDisplay) : DgtDisplay × List Eff :=
  if ¬st.menu.inside then
    ({ st with play_move := none, play_fen := none, play_turn := none },
     [Eff.ev (Ev.SWITCH_SIDES st.engine_finished)])
  else (st, [])

/-- A DGT button message: the raw button code and the reporting device. -/
structure ButtonMsg where
  button : ℤ
  dev : String
  deriving DecidableEq, Repr

/-- `DgtDisplay._process_button` (dgt/display.py lines 191-209): every
branch is gated on `not self.dgtmenu.get_engine_restart()`; code `0x11`
powers off, `±0x40` is the lever. -/
def process_button (st : DgtDisplay) (msg : ButtonMsg) :
    Except PyErr (DgtDisplay × List Eff) :=
  if st.menu.engine_restart then Except.ok (st, [])
  else if msg.button = 0 then Except.ok (process_button0 st)
  else if msg.button = 1 then process_button1 st
  else if msg.button = 2 then Except.ok (process_button2 st)
  else if msg.button = 3 then Except.ok (process_button3 st)
  else if msg.button = 4 then Except.ok (process_button4 st)
  else if msg.button = 0x11 then Except.ok (power_off st msg.dev)
  else if msg.button = 0x40 then Except.ok (process_lever st)
  else if msg.button = -0x40 then Except.ok (process_lever st)
  else Except.ok (st, [])

end Display

namespace Display

/-- A fresh menu as after construction: outside the menu, nothing selected,
no stored position, no engines/books yet. -/
def menu0 : DgtMenu :=
  { inside := false, confirm := false, engine_restart := false, flip_board := false,
    position_reverse := false, menu_top := false, dgt_fen := none, engine_level := none,
    engine_index := 0, installed_engines := [], engine_has_960 := false, all_books := [],
    book_index := 0, mode := Mode.NORMAL, time_mode := TimeMode.FIXED, time_fixed := 0,
    time_blitz := 0, time_fisch := 0, tc_fixed_map := [], tc_blitz_map := [],
    tc_fisch_map := [], tc_fixed_list := [], tc_blitz_list := [], tc_fisch_list := [],
    current_text := none, up_result := none, down_result := none,
    left_result := tText "B00_left" "", right_result := tText "B00_right" "",
    ponderinterval := 0 }

/-- A fresh display session (dgt/display.py lines 40-55). -/
def display0 : DgtDisplay :=
  { menu := menu0, trans := ⟨false, false, false, false⟩, engine_finished := false,
    drawresign_fen := none, show_move_or_value := 0, leds_are_on := false,
    play_move := none, play_fen := none, play_turn := none, hint_move := none,
    hint_fen := none, hint_turn := none, last_move := none, last_fen := none,
    last_turn := none, score := text_score none, depth := none }

/-- Counterexample to C9: with an engine restart in progress
(`get_engine_restart()` true), the power button code 0x11 does nothing at
all — no shutdown event and no goodbye text — because the whole button
dispatch is gated on `not self.dgtmenu.get_engine_restart()`
(dgt/display.py line 193). -/
theorem C9_counterexample :
    process_button { display0 with menu := { menu0 with engine_restart := true } }
        ⟨0x11, "web"⟩ =
      Except.ok ({ display0 with menu := { menu0 with engine_restart := true } }, []) := rfl

/-- C9 (amended): whenever no engine restart is in progress, a button
message with the dedicated power code 0x11 triggers a shutdown — the
goodbye text is fired, then the shutdown event with the reporting device —
regardless of the rest of the session state (the engine-restart flag is
set as part of powering off). -/
theorem C9_power_button_shutdown (st : DgtDisplay) (dev : String)
    (h : st.menu.engine_restart = false) :
    process_button st ⟨0x11, dev⟩ =
      Except.ok ({ st with menu := { st.menu with engine_restart := true } },
        [Eff.out (DOut.text (tText "Y10_goodbye" "")), Eff.ev (Ev.SHUTDOWN dev)]) := by
  unfold process_button power_off
  rw [h]
  norm_num

/-- Witness for the amended C9: the power code on a fresh session. -/
theorem C9_power_button_shutdown_witness :
    process_button display0 ⟨0x11, "ser"⟩ =
      Except.ok ({ display0 with menu := { menu0 with engine_restart := true } },
        [Eff.out (DOut.text (tText "Y10_goodbye" "")), Eff.ev (Ev.SHUTDOWN "ser")]) :=
  C9_power_button_shutdown display0 "ser" rfl

/-- C7: reporting a position whose flip-normalized form equals the stored
one is ignored: no event is fired, no display command is emitted, and the
session state is unchanged (only the standing-flip marker of the external
menu may be re-asserted by the normalization itself). -/
theorem C7_same_fen_ignored (oracle : String → Option (Option Nat)) (st : DgtDisplay)
    (fen0 : String) (raw : Bool)
    (h : some (fen_after_flip st.menu fen0 raw) = (menu_after_flip st.menu fen0 raw).dgt_fen) :
    process_fen oracle st fen0 raw =
      Except.ok ({ st with menu := menu_after_flip st.menu fen0 raw }, []) := by
  unfold process_fen
  rw [if_pos h]

/-- Witness for C7: re-reporting the standard start position already
stored in the menu. -/
theorem C7_same_fen_ignored_witness :
    process_fen (fun _ => none)
        { display0 with menu :=
          { menu0 with dgt_fen := some "rnbqkbnr/pppppppp/8/8/8/8/PPPPPPPP/RNBQKBNR" } }
        "rnbqkbnr/pppppppp/8/8/8/8/PPPPPPPP/RNBQKBNR" true =
      Except.ok ({ display0 with menu :=
        { menu0 with dgt_fen := some "rnbqkbnr/pppppppp/8/8/8/8/PPPPPPPP/RNBQKBNR" } },
        []) := by
  have h := C7_same_fen_ignored (fun _ => none)
    { display0 with menu :=
      { menu0 with dgt_fen := some "rnbqkbnr/pppppppp/8/8/8/8/PPPPPPPP/RNBQKBNR" } }
    "rnbqkbnr/pppppppp/8/8/8/8/PPPPPPPP/RNBQKBNR" true (by rfl)
  exact h.trans (by rfl)

end Display

namespace Display

theorem level_map_mem : ∀ g : Fin 8, level_map.getD g.val "" ∈ level_map := by
  decide

theorem level_map_not_flip : ∀ g : Fin 8, level_map.getD g.val "" ≠ flipTrigger := by
  decide

theorem level_map_idx : ∀ g : Fin 8,
    level_map.indexOf (level_map.getD g.val "") = g.val := by
  decide

theorem level_map_drawresign : ∀ g : Fin 8,
    (drawresign (level_map.getD g.val "")).isSome = true := by
  decide

/-- C4: a level-selection gesture with file index `f` on an engine with a
non-empty level table of size `n` selects exactly the level index
`min(ceil(n/8)*f, n-1)` (stored via `set_engine_level`); over the eight
gesture positions that index is monotone non-decreasing in the file index
and never exceeds `n-1`. -/
theorem C4_level_gesture (oracle : String → Option (Option Nat)) (st : DgtDisplay)
    (f : Fin 8) (raw : Bool) (eng : EngineRec)
    (hflip : st.menu.flip_board = false)
    (hnew : st.menu.dgt_fen ≠ some (level_map.getD f.val ""))
    (heng : st.menu.installed_engines.get? st.menu.engine_index = some eng)
    (hlv : eng.level_dict ≠ []) :
    (∃ st1 effs, process_fen oracle st (level_map.getD f.val "") raw =
        Except.ok (st1, effs) ∧
      st1.menu.engine_level =
        some (min ((eng.level_dict.length + 7) / 8 * f.val) (eng.level_dict.length - 1))) ∧
    (∀ n : Nat, ∀ g g' : Fin 8, g.val ≤ g'.val →
      min ((n + 7) / 8 * g.val) (n - 1) ≤ min ((n + 7) / 8 * g'.val) (n - 1)) ∧
    (∀ n : Nat, ∀ g : Fin 8, min ((n + 7) / 8 * g.val) (n - 1) ≤ n - 1) := by
  refine ⟨?_, ?_, ?_⟩
  · have e1 : fen_after_flip st.menu (level_map.getD f.val "") raw =
        level_map.getD f.val "" := by
      unfold fen_after_flip
      rw [hflip]
      rw [if_neg (by simp : ¬((false && raw) = true)),
        if_neg (level_map_not_flip f)]
    have e2 : menu_after_flip st.menu (level_map.getD f.val "") raw = st.menu := by
      unfold menu_after_flip
      rw [hflip]
      rw [if_neg (by simp : ¬((false && raw) = true)),
        if_neg (level_map_not_flip f)]
    obtain ⟨drf, hdrf⟩ := Option.isSome_iff_exists.mp (level_map_drawresign f)
    have hie : eng.level_dict.isEmpty = false := by
      cases hld : eng.level_dict with
      | nil => exact absurd hld hlv
      | cons a t => rfl
    unfold process_fen
    rw [e1, e2, if_neg (fun hc => hnew hc.symm)]
    simp only [hdrf]
    rw [if_pos (level_map_mem f)]
    unfold process_fen_level
    dsimp only
    simp only [heng]
    simp only [hie, Bool.false_eq_true, if_false]
    rw [level_map_idx f]
    refine ⟨_, _, rfl, ?_⟩
    dsimp only
    rw [exit_menu_engine_level]
  · intro n g g' hgg
    exact min_le_min (Nat.mul_le_mul_left _ hgg) le_rfl
  · intro n g
    exact min_le_right _ _

end Display

namespace Display

/-- A 20-level engine for the C4 witness. -/
def eng20 : EngineRec :=
  { file := "engines/a9/stockfish", text := tText "B00_engine" "",
    level_dict := ["level00", "level01", "level02", "level03", "level04", "level05",
      "level06", "level07", "level08", "level09", "level10", "level11", "level12",
      "level13", "level14", "level15", "level16", "level17", "level18", "level19"] }

/-- Witness for C4: file index 3 on a 20-level engine selects level
`min(ceil(20/8)*3, 19) = 9`. -/
theorem C4_level_gesture_witness :
    (process_fen (fun _ => none)
        { display0 with menu := { menu0 with installed_engines := [eng20] } }
        (level_map.getD 3 "") false).toOption.map
      (fun p => p.1.menu.engine_level) = some (some 9) := by
  obtain ⟨⟨st1, effs, he, hl⟩, _, _⟩ :=
    C4_level_gesture (fun _ => none)
      { display0 with menu := { menu0 with installed_engines := [eng20] } }
      ⟨3, by omega⟩ false eng20 rfl (by simp [menu0]) rfl (by simp [eng20])
  rw [he]
  show some st1.menu.engine_level = some (some 9)
  rw [hl]
  rfl

end Display

namespace Display

/-- The flip normalization only touches the menu's standing-flip marker. -/
theorem menu_after_flip_fields (m : DgtMenu) (f : String) (r : Bool) :
    (menu_after_flip m f r).tc_fixed_map = m.tc_fixed_map ∧
    (menu_after_flip m f r).tc_blitz_map = m.tc_blitz_map ∧
    (menu_after_flip m f r).tc_fisch_map = m.tc_fisch_map ∧
    (menu_after_flip m f r).inside = m.inside ∧
    (menu_after_flip m f r).engine_has_960 = m.engine_has_960 ∧
    (menu_after_flip m f r).dgt_fen = m.dgt_fen := by
  unfold menu_after_flip
  dsimp only
  split <;> split <;> exact ⟨rfl, rfl, rfl, rfl, rfl, rfl⟩

/-- C8 (amended): a reported position that matches no gesture table and
parses as a valid Chess960 start position different from the standard
start, while Chess960 support is off, yields exactly one user-visible
"invalid starting position" error text, fires no event, and leaves the
session state untouched except for the per-report position bookkeeping:
the stored `dgt_fen` and the recomputed `drawresign_fen` slice (plus, at
most, the menu's standing-flip marker set during normalization). -/
theorem C8_invalid_start_notice (oracle : String → Option (Option Nat))
    (st : DgtDisplay) (fen0 fen : String) (raw : Bool) (p : Nat) (drf : String)
    (hfen : fen = fen_after_flip st.menu fen0 raw)
    (hnew : st.menu.dgt_fen ≠ some fen)
    (hdr : drawresign fen = some drf)
    (hl : fen ∉ level_map) (hb : fen ∉ book_map) (he : fen ∉ engine_map)
    (hm : mode_map.lookup fen = none)
    (hf1 : st.menu.tc_fixed_map.lookup fen = none)
    (hf2 : st.menu.tc_blitz_map.lookup fen = none)
    (hf3 : st.menu.tc_fisch_map.lookup fen = none)
    (hsd : fen ∉ shutdown_map) (hrb : fen ∉ reboot_map)
    (hdrm : drawresign_map.lookup drf = none)
    (horacle : oracle fen = some (some p)) (hp : p ≠ 518)
    (h960 : st.menu.engine_has_960 = false) :
    process_fen oracle st fen0 raw =
      Except.ok ({ st with
          menu := { menu_after_flip st.menu fen0 raw with dgt_fen := some fen },
          drawresign_fen := some drf },
        [Eff.out (DOut.text (tText "Y00_error960" ""))]) := by
  obtain ⟨p1, p2, p3, p4, p5, p6⟩ := menu_after_flip_fields st.menu fen0 raw
  unfold process_fen
  rw [← hfen, if_neg (by rw [p6]; exact fun hc => hnew hc.symm)]
  simp only [hdr]
  rw [if_neg hl, if_neg hb, if_neg he]
  simp only [hm]
  rw [if_neg (by rw [p1, hf1]; simp), if_neg (by rw [p2, hf2]; simp),
    if_neg (by rw [p3, hf3]; simp), if_neg hsd, if_neg hrb]
  simp only [hdrm]
  unfold process_fen_board
  simp only [horacle]
  rw [if_neg (by rw [p5, h960]; simp [hp])]

/-- The gesture-free Chess960 start position used for the C8 instances. -/
def start960 : String := "nrbqkbnr/pppppppp/8/8/8/8/PPPPPPPP/NRBQKBNR"

/-- A board-parse oracle recognizing `start960` as Chess960 start number
300. -/
def oracle960 : String → Option (Option Nat) :=
  fun f => if f = start960 then some (some 300) else none

/-- Counterexample to C8 as stated: reporting `start960` on a fresh
session (Chess960 off) does emit the invalid-starting-position text and
fires no event, but the session state is NOT otherwise untouched —
`drawresign_fen` (session state per the data model) changes from `none` to
the recomputed slice. -/
theorem C8_counterexample :
    (process_fen oracle960 display0 start960 false).toOption.map
        (fun q => (q.2, q.1.drawresign_fen)) =
      some ([Eff.out (DOut.text (tText "Y00_error960" ""))], some "8/8/8/8/8/8/8/8") ∧
    display0.drawresign_fen = none := by
  exact ⟨by rfl, rfl⟩

/-- Witness for the amended C8: the same report, with the full resulting
state spelled out — only `dgt_fen` and `drawresign_fen` differ from the
fresh session, and the only effect is the error text. -/
theorem C8_invalid_start_notice_witness :
    process_fen oracle960 display0 start960 false =
      Except.ok ({ display0 with
          menu := { menu0 with dgt_fen := some start960 },
          drawresign_fen := some "8/8/8/8/8/8/8/8" },
        [Eff.out (DOut.text (tText "Y00_error960" ""))]) := by
  have h := C8_invalid_start_notice oracle960 display0 start960 start960 false 300
    "8/8/8/8/8/8/8/8" (by rfl) (by simp [display0, menu0]) (by rfl)
    (by decide) (by decide) (by decide) (by rfl) (by rfl) (by rfl) (by rfl)
    (by decide) (by decide) (by rfl) (by rfl) (by decide) rfl
  exact h.trans (by rfl)

end Display
